import Mathlib

/-!
Verification of the worktree/branch operation engine (automaker-rmk).

We shallowly embed the three core handlers:
  * `switchBranch`     — `routes/switch-branch` (src/unnamed/part_000,
                         `createSwitchBranchHandler`): the protect/switch/restore
                         protocol with recovery on partial failure;
  * `parseWorktrees` / `enrichWorktrees`
                       — `routes/list.ts` (`createListHandler`): the porcelain
                         worktree-record parser and the detail-mode status
                         enrichment loop;
  * `parseBranches`    — `routes/list-branches.ts` (`createListBranchesHandler`):
                         the local-branch listing.

External `execAsync` git invocations are modelled by an environment that fixes
the outcome (captured stdout, or a thrown error carrying `stderr`/`message`) of
each call site; the handlers additionally return the ordered trace of git calls
they issued, so ordering and absence-of-side-effect properties are statable.

String operations are implemented over `List Char`, faithful to the JavaScript
semantics used by the source (`trim`, `split("\n")`, `includes`, `startsWith`,
`slice`, first-occurrence `replace`), and fully evaluable by the kernel.
-/

/-! ## JavaScript-faithful string operations -/

/-- JS `String.prototype.split("\n")` on the character list: splitting an empty
string yields `[[]]`, matching JS `"".split("\n") = [""]`. -/
def splitLinesL : List Char → List (List Char)
  | [] => [[]]
  | c :: rest =>
    let r := splitLinesL rest
    if c = '\n' then [] :: r
    else
      match r with
      | [] => [[c]]
      | h :: t => (c :: h) :: t

/-- JS `s.split("\n")`. -/
def jsSplitNl (s : String) : List String :=
  (splitLinesL s.data).map (fun cs => ⟨cs⟩)

/-- ASCII whitespace recognised by `trim` (space, tab, newline, carriage return):
the whitespace actually occurring in git porcelain output. -/
def isWs (c : Char) : Bool := c = ' ' || c = '\t' || c = '\n' || c = '\r'

/-- JS `s.trim()`. -/
def jsTrim (s : String) : String :=
  ⟨((s.data.dropWhile isWs).reverse.dropWhile isWs).reverse⟩

/-- Does `cs` start with `pat`? (JS `startsWith` on character lists.) -/
def listStartsWith : List Char → List Char → Bool
  | _, [] => true
  | [], _ :: _ => false
  | c :: cs, p :: ps => c = p && listStartsWith cs ps

/-- JS `s.startsWith(pat)`. -/
def jsStartsWith (s pat : String) : Bool := listStartsWith s.data pat.data

/-- JS `s.slice(n)` (drop the first `n` characters). -/
def jsSlice (s : String) (n : Nat) : String := ⟨s.data.drop n⟩

/-- Does `cs` contain `pat` as a contiguous substring? (JS `includes`.) -/
def listIncludes (cs pat : List Char) : Bool :=
  match cs with
  | [] => listStartsWith [] pat
  | _ :: rest => listStartsWith cs pat || listIncludes rest pat

/-- JS `s.includes(pat)`. -/
def jsIncludes (s pat : String) : Bool := listIncludes s.data pat.data

/-- Replace the first occurrence of `pat` in `cs` by `rep`
(JS `String.prototype.replace` with a string pattern). -/
def replaceFirstL (cs pat rep : List Char) : List Char :=
  match cs with
  | [] => if listStartsWith [] pat then rep else []
  | c :: rest =>
    if listStartsWith cs pat then rep ++ cs.drop pat.length
    else c :: replaceFirstL rest pat rep

/-- JS `s.replace(pat, rep)` (first occurrence only). -/
def jsReplace (s pat rep : String) : String := ⟨replaceFirstL s.data pat.data rep.data⟩

/-! ## External-call model -/

/-- A thrown `execAsync` error object: the fields the source reads
(`err.stderr`, `err.message`). A missing field is the empty string
(it is falsy either way in the `||` chains of the source). -/
structure ExecError where
  stderr : String
  message : String
  deriving DecidableEq, Repr

/-- Outcome of one `execAsync` invocation: resolved with captured stdout, or
rejected with an error object. -/
inductive ExecOutcome where
  | ok (stdout : String)
  | err (e : ExecError)
  deriving DecidableEq, Repr

/-- Modelled from the spec: `getErrorMessage` is defined in `routes/worktree/common.js`,
which is not among the provided sources. Per the spec, a failure is reported
"with the tool's raw error text attached" / "message text from the underlying
tool where available": it extracts the error's human-readable `message`. -/
def getErrorMessage (e : ExecError) : String := e.message

/-- `err.stderr || err.message || ""` (line 102 of the switch-branch handler):
the first truthy (non-empty) string in the chain. -/
def errMsgOf (e : ExecError) : String :=
  if e.stderr = "" then e.message else e.stderr

/-- `errorMsg.includes("CONFLICT") || errorMsg.includes("conflict")`
(line 104 of the switch-branch handler). -/
def conflictSignature (msg : String) : Bool :=
  jsIncludes msg "CONFLICT" || jsIncludes msg "conflict"

/-- One git call site of the switch-branch handler, in the order issued. -/
inductive GitCall where
  /-- `git rev-parse --abbrev-ref HEAD` -/
  | revParseHead
  /-- `git rev-parse --verify <branch>` -/
  | verifyBranch (branch : String)
  /-- `git status --porcelain` -/
  | statusPorcelain
  /-- `git stash push -m "auto-stash before branch switch"` -/
  | stashPush
  /-- `git checkout <branch>` -/
  | checkout (branch : String)
  /-- `git stash pop` -/
  | stashPop
  deriving DecidableEq, Repr

/-- Is the call state-mutating? (`rev-parse` and `status` are pure queries.) -/
def isMutating : GitCall → Bool
  | .stashPush => true
  | .checkout _ => true
  | .stashPop => true
  | _ => false

/-! ## Switch-branch handler (src/unnamed/part_000) -/

/-- The `result` payload of a successful switch
(`previousBranch`/`currentBranch`/`message`/`stashed`, optional `stashConflict`). -/
structure SwitchResult where
  previousBranch : String
  currentBranch : String
  message : String
  stashed : Bool
  stashConflict : Option Bool
  deriving DecidableEq, Repr

/-- The three response shapes the handler produces:
`res.status(400).json({success:false,error})`,
`res.json({success:true,result})`, and — via the outer catch —
`res.status(500).json({success:false,error:getErrorMessage(error)})`. -/
inductive SwitchResponse where
  | badRequest (error : String)
  | okResult (result : SwitchResult)
  | serverError (error : String)
  deriving DecidableEq, Repr

/-- Outcomes of the external git invocations a single switch-branch request can
issue.  `stashPop1` is the outcome of the first `git stash pop` issued during
the request, `stashPop2` of the second (the handler issues at most two). -/
structure SwitchEnv where
  revParseHead : ExecOutcome
  verifyBranch : ExecOutcome
  statusPorcelain : ExecOutcome
  stashPush : ExecOutcome
  checkout : ExecOutcome
  stashPop1 : ExecOutcome
  stashPop2 : ExecOutcome
  deriving DecidableEq, Repr

/-- JS falsiness of an optional request-body string (`!worktreePath`):
absent or empty. -/
def isFalsy : Option String → Bool
  | none => true
  | some s => s == ""

/- The user-facing message strings of the handler.  The source wraps the branch
name in ASCII single quotes (e.g. `Already on branch 'x'`); the quotes are
elided here, the surrounding text is kept verbatim. -/

/-- Line 50: `Already on branch '<branch>'`. -/
def msgAlreadyOn (bn : String) : String := "Already on branch " ++ bn

/-- Line 110: `Switched to '<branch>' but stash had conflicts. Please resolve manually.` -/
def msgConflict (bn : String) : String :=
  "Switched to " ++ bn ++ " but stash had conflicts. Please resolve manually."

/-- Line 123: `Switched to branch '<branch>' (changes stashed and restored)`. -/
def msgStashedRestored (bn : String) : String :=
  "Switched to branch " ++ bn ++ " (changes stashed and restored)"

/-- Line 124: `Switched to branch '<branch>'`. -/
def msgSwitched (bn : String) : String := "Switched to branch " ++ bn

/-- Line 65: `Branch '<branch>' does not exist`. -/
def msgNoSuchBranch (bn : String) : String := "Branch " ++ bn ++ " does not exist"

/-- Lines 87–145: the inner `try { checkout ... pop ... } catch (checkoutError)`
block, entered with `stashed` already decided and the stash pushed when
`stashed = true`.  Returns the response together with the git calls this block
issues (the caller prepends the calls already made).

* checkout rejects → the `catch (checkoutError)` block runs: when `stashed`,
  a best-effort `git stash pop` is issued and its outcome ignored (lines
  138–142), then the original error is re-thrown into the outer catch → 500
  with `getErrorMessage` of the *checkout* error.
* checkout resolves, `stashed = true` → `git stash pop` (line 96).  On
  rejection, `errorMsg = err.stderr || err.message || ""` is tested for the
  conflict signature: conflict → 200 success with `stashConflict: true`
  (lines 104–116); otherwise the pop error is re-thrown (line 118), lands in
  `catch (checkoutError)`, which — `stashed` being true — issues the second,
  best-effort `git stash pop` and re-throws into the outer catch → 500 with
  `getErrorMessage` of the *pop* error.
* checkout resolves, `stashed = false` → 200 success (lines 122–134). -/
def checkoutPhase (env : SwitchEnv) (prev bn : String) (stashed : Bool) :
    SwitchResponse × List GitCall :=
  match env.checkout with
  | .err e =>
    if stashed then
      (.serverError (getErrorMessage e), [GitCall.checkout bn, GitCall.stashPop])
    else
      (.serverError (getErrorMessage e), [GitCall.checkout bn])
  | .ok _ =>
    if stashed then
      match env.stashPop1 with
      | .ok _ =>
        (.okResult { previousBranch := prev, currentBranch := bn,
                     message := msgStashedRestored bn, stashed := true,
                     stashConflict := none },
         [GitCall.checkout bn, GitCall.stashPop])
      | .err e =>
        if conflictSignature (errMsgOf e) then
          (.okResult { previousBranch := prev, currentBranch := bn,
                       message := msgConflict bn, stashed := true,
                       stashConflict := some true },
           [GitCall.checkout bn, GitCall.stashPop])
        else
          (.serverError (getErrorMessage e),
           [GitCall.checkout bn, GitCall.stashPop, GitCall.stashPop])
    else
      (.okResult { previousBranch := prev, currentBranch := bn,
                   message := msgSwitched bn, stashed := false,
                   stashConflict := none },
       [GitCall.checkout bn])

/-- `createSwitchBranchHandler` (src/unnamed/part_000, lines 13–151) as a pure
function of the request body and the outcomes of the external git calls.
Returns the response and the ordered trace of git calls issued.

Stages, in source order: validate `worktreePath` and `branchName` (lines
21–35); resolve the current branch (38–42); no-op when already on the target
(44–55); verify the target exists, a rejection being a 400 client error
(57–68); query `git status --porcelain` and stash when its trimmed output is
non-empty (70–85); then the checkout/pop block (`checkoutPhase`).  A rejection
of the current-branch, status or stash-push calls throws into the outer catch
(lines 146–149) → 500 with `getErrorMessage`. -/
def switchBranch (env : SwitchEnv) (worktreePath branchName : Option String) :
    SwitchResponse × List GitCall :=
  if isFalsy worktreePath then (.badRequest "worktreePath required", [])
  else if isFalsy branchName then (.badRequest "branchName required", [])
  else
    let bn := branchName.getD ""
    match env.revParseHead with
    | .err e => (.serverError (getErrorMessage e), [GitCall.revParseHead])
    | .ok currentBranchOutput =>
      let previousBranch := jsTrim currentBranchOutput
      if previousBranch = bn then
        (.okResult { previousBranch := previousBranch, currentBranch := bn,
                     message := msgAlreadyOn bn, stashed := false,
                     stashConflict := none },
         [GitCall.revParseHead])
      else
        match env.verifyBranch with
        | .err _ =>
          (.badRequest (msgNoSuchBranch bn),
           [GitCall.revParseHead, GitCall.verifyBranch bn])
        | .ok _ =>
          match env.statusPorcelain with
          | .err e =>
            (.serverError (getErrorMessage e),
             [GitCall.revParseHead, GitCall.verifyBranch bn, GitCall.statusPorcelain])
          | .ok statusOutput =>
            if 0 < (jsTrim statusOutput).length then
              match env.stashPush with
              | .err e =>
                (.serverError (getErrorMessage e),
                 [GitCall.revParseHead, GitCall.verifyBranch bn,
                  GitCall.statusPorcelain, GitCall.stashPush])
              | .ok _ =>
                let r := checkoutPhase env previousBranch bn true
                (r.1, [GitCall.revParseHead, GitCall.verifyBranch bn,
                       GitCall.statusPorcelain, GitCall.stashPush] ++ r.2)
            else
              let r := checkoutPhase env previousBranch bn false
              (r.1, [GitCall.revParseHead, GitCall.verifyBranch bn,
                     GitCall.statusPorcelain] ++ r.2)

/-! ## Worktree listing (src/apps/server/src/routes/worktree/routes/list.ts) -/

/-- One `WorktreeInfo` entry.  `hasChanges`/`changedFilesCount` are the optional
detail-mode fields, absent (`none`) until enrichment sets them. -/
structure WorktreeInfo where
  path : String
  branch : String
  isMain : Bool
  hasChanges : Option Bool
  changedFilesCount : Option Nat
  deriving DecidableEq, Repr

/-- The in-progress record of the parsing loop
(`let current: { path?: string; branch?: string } = {}`). -/
structure CurRecord where
  path : Option String
  branch : Option String
  deriving DecidableEq, Repr

/-- The `for (const line of lines)` loop of `createListHandler` (lines 47–64):
`worktree ` lines set the record's path (`line.slice(9)`), `branch ` lines set
its branch (`line.slice(7).replace("refs/heads/", "")`), an empty line flushes
the record — pushed only when both path and branch are present, the first
pushed record getting `isMain = true` — and any other line is ignored. -/
def parseLoop : List String → CurRecord → Bool → List WorktreeInfo → List WorktreeInfo
  | [], _, _, acc => acc
  | line :: rest, current, isFirst, acc =>
    if jsStartsWith line "worktree " then
      parseLoop rest { current with path := some (jsSlice line 9) } isFirst acc
    else if jsStartsWith line "branch " then
      parseLoop rest
        { current with branch := some (jsReplace (jsSlice line 7) "refs/heads/" "") }
        isFirst acc
    else if line = "" then
      match current.path, current.branch with
      | some p, some b =>
        parseLoop rest { path := none, branch := none } false
          (acc ++ [{ path := p, branch := b, isMain := isFirst,
                     hasChanges := none, changedFilesCount := none }])
      | _, _ => parseLoop rest { path := none, branch := none } isFirst acc
    else
      parseLoop rest current isFirst acc

/-- Lines 42–64 of `createListHandler`: parse the stdout of
`git worktree list --porcelain` into the worktree entries. -/
def parseWorktrees (stdout : String) : List WorktreeInfo :=
  parseLoop (jsSplitNl stdout) { path := none, branch := none } true []

/-- `statusOutput.trim().split("\n").filter(line => line.trim()).length`
(line 74): the number of non-blank status lines. -/
def countChangedLines (statusOutput : String) : Nat :=
  ((jsSplitNl (jsTrim statusOutput)).filter (fun l => jsTrim l != "")).length

/-- Lines 69–81: the body of the detail-mode loop for one worktree, given the
outcome of `git status --porcelain` run in that worktree's path.  On success
`hasChanges`/`changedFilesCount` come from the non-blank status-line count; on
failure both degrade to "no changes" (`false`/`0`). -/
def enrichWorktree (outcome : ExecOutcome) (w : WorktreeInfo) : WorktreeInfo :=
  match outcome with
  | .ok statusOutput =>
    let n := countChangedLines statusOutput
    { w with hasChanges := some (decide (0 < n)), changedFilesCount := some n }
  | .err _ => { w with hasChanges := some false, changedFilesCount := some 0 }

/-- Lines 67–83: the `includeDetails` loop, which for each parsed worktree runs
`git status --porcelain` with `cwd` set to that worktree's path (modelled by
the oracle `statusOf` from paths to outcomes) and enriches the entry. -/
def enrichWorktrees (statusOf : String → ExecOutcome) (ws : List WorktreeInfo) :
    List WorktreeInfo :=
  ws.map (fun w => enrichWorktree (statusOf w.path) w)

/-! ## Branch listing (src/apps/server/src/routes/worktree/routes/list-branches.ts) -/

/-- One `BranchInfo` entry. -/
structure BranchInfo where
  name : String
  isCurrent : Bool
  isRemote : Bool
  deriving DecidableEq, Repr

/-- Lines 34–54 of `createListBranchesHandler`: given the stdout of
`git rev-parse --abbrev-ref HEAD` and of `git branch --format=%(refname:short)`,
build the `currentBranch` value and the `BranchInfo` list:
`branchesOutput.trim().split("\n").filter(b => b.trim()).map(name =>
({name: name.trim(), isCurrent: name.trim() === currentBranch, isRemote: false}))`. -/
def parseBranches (currentBranchOutput branchesOutput : String) :
    String × List BranchInfo :=
  let currentBranch := jsTrim currentBranchOutput
  (currentBranch,
   ((jsSplitNl (jsTrim branchesOutput)).filter (fun b => jsTrim b != "")).map
     (fun name => { name := jsTrim name,
                    isCurrent := jsTrim name == currentBranch,
                    isRemote := false }))

/-! ## Trace predicates -/

/-- Scans a call trace left to right; `seen` records whether a `stashPush` has
already occurred.  Returns `true` iff every `checkout` in the trace is preceded
by an earlier `stashPush` (given the initial `seen`). -/
def stashSeenBeforeCheckout : List GitCall → Bool → Bool
  | [], _ => true
  | .checkout _ :: rest, seen => seen && stashSeenBeforeCheckout rest seen
  | .stashPush :: rest, _ => stashSeenBeforeCheckout rest true
  | _ :: rest, seen => stashSeenBeforeCheckout rest seen

/-! ## Concrete fixtures used by the witness theorems -/

/-- A dirty-worktree switch whose `git stash pop` rejects with a conflict. -/
def envPopConflict : SwitchEnv :=
  { revParseHead := .ok "main\n", verifyBranch := .ok "abc123\n",
    statusPorcelain := .ok " M a.ts\n", stashPush := .ok "",
    checkout := .ok "",
    stashPop1 := .err { stderr := "CONFLICT (content): Merge conflict in a.ts",
                        message := "" },
    stashPop2 := .ok "" }

/-- A dirty-worktree switch whose `git stash pop` rejects without a conflict
signature. -/
def envPopBoom : SwitchEnv :=
  { envPopConflict with
    stashPop1 := .err { stderr := "", message := "stash pop failed" } }

/-- A dirty-worktree switch whose checkout rejects; both stash pops also
reject, exercising the swallowed recovery error. -/
def envCheckoutFail : SwitchEnv :=
  { envPopConflict with
    checkout := .err { stderr := "error: branch held elsewhere",
                       message := "Command failed: git checkout feat" },
    stashPop1 := .err { stderr := "", message := "recovery pop failed" } }

/-- A dirty-worktree switch where every git call resolves. -/
def envAllOk : SwitchEnv :=
  { envPopConflict with stashPop1 := .ok "" }

/-- An environment whose branch-existence check rejects. -/
def envNoBranch : SwitchEnv :=
  { envPopConflict with
    verifyBranch := .err { stderr := "fatal: Needed a single revision",
                           message := "Command failed: git rev-parse --verify nope" } }

/-- A dirty-worktree switch whose checkout resolves, whose first `git stash
pop` rejects without a conflict signature and whose second (recovery) pop also
rejects. -/
def envPopBoomTwice : SwitchEnv :=
  { envPopConflict with
    stashPop1 := .err { stderr := "", message := "stash pop failed" },
    stashPop2 := .err { stderr := "", message := "recovery pop failed" } }

/-- `git worktree list --porcelain` output of a repository whose single (main)
worktree is on a detached HEAD: its record has no `branch ` line, so the
parser drops it. -/
def detachedOnlyOut : String := "worktree /repo\nHEAD abc123\ndetached\n\n"

/-- `git worktree list --porcelain` output with the main worktree on `main`
and one linked worktree on `feat`. -/
def twoWorktreesOut : String :=
  "worktree /repo\nHEAD abc123\nbranch refs/heads/main\n\nworktree /repo/wt\nHEAD def456\nbranch refs/heads/feat\n\n"

/-- A parsed main-worktree entry. -/
def wtRepo : WorktreeInfo :=
  { path := "/repo", branch := "main", isMain := true,
    hasChanges := none, changedFilesCount := none }

/-- A parsed linked-worktree entry. -/
def wtLinked : WorktreeInfo :=
  { path := "/repo/wt", branch := "feat", isMain := false,
    hasChanges := none, changedFilesCount := none }

/-- A status oracle: `/repo` is dirty (two changed files), any other path —
for instance `/repo/wt`, which no longer exists on disk — rejects. -/
def statusOracleA : String → ExecOutcome := fun p =>
  if p = "/repo" then .ok " M a.ts\n?? b.ts\n"
  else .err { stderr := "fatal: not a git repository", message := "Command failed: git status --porcelain" }

/-- A second status oracle agreeing with `statusOracleA` on `/repo/wt` only. -/
def statusOracleB : String → ExecOutcome := fun p =>
  if p = "/repo" then .ok ""
  else .err { stderr := "fatal: not a git repository", message := "Command failed: git status --porcelain" }

/-! ## Helper lemmas -/

/-- A trace that passes the `stashSeenBeforeCheckout` check starting from
`seen = false` and contains a `checkout` also contains a `stashPush`. -/
theorem stashPush_mem_of_checker (calls : List GitCall)
    (h : stashSeenBeforeCheckout calls false = true)
    (b : String) (hmem : GitCall.checkout b ∈ calls) : GitCall.stashPush ∈ calls := by
  induction calls with
  | nil => simp at hmem
  | cons c rest ih =>
    match c with
    | .checkout b2 => simp [stashSeenBeforeCheckout] at h
    | .stashPush => exact List.mem_cons_self _ _
    | .revParseHead =>
      rcases List.mem_cons.mp hmem with h1 | h1
      · exact absurd h1 (by simp)
      · exact List.mem_cons_of_mem _ (ih h h1)
    | .verifyBranch b2 =>
      rcases List.mem_cons.mp hmem with h1 | h1
      · exact absurd h1 (by simp)
      · exact List.mem_cons_of_mem _ (ih h h1)
    | .statusPorcelain =>
      rcases List.mem_cons.mp hmem with h1 | h1
      · exact absurd h1 (by simp)
      · exact List.mem_cons_of_mem _ (ih h h1)
    | .stashPop =>
      rcases List.mem_cons.mp hmem with h1 | h1
      · exact absurd h1 (by simp)
      · exact List.mem_cons_of_mem _ (ih h h1)

/-- Running the parsing loop with `isFirst = false` only appends entries, and
none of the appended entries has `isMain = true`. -/
theorem parseLoop_false_adds_no_main (lines : List String) :
    ∀ (cur : CurRecord) (acc : List WorktreeInfo),
    ∃ extra, parseLoop lines cur false acc = acc ++ extra
      ∧ extra.countP (fun w => w.isMain) = 0 := by
  induction lines with
  | nil => intro cur acc; exact ⟨[], by simp [parseLoop]⟩
  | cons line rest ih =>
    intro cur acc
    unfold parseLoop
    by_cases h1 : jsStartsWith line "worktree " = true
    · simp only [h1, if_true]; exact ih _ _
    · rw [Bool.not_eq_true] at h1
      simp only [h1, Bool.false_eq_true, if_false]
      by_cases h2 : jsStartsWith line "branch " = true
      · simp only [h2, if_true]; exact ih _ _
      · rw [Bool.not_eq_true] at h2
        simp only [h2, Bool.false_eq_true, if_false]
        by_cases h3 : line = ""
        · simp only [h3, if_true]
          rcases hp : cur.path with _ | p <;> rcases hb : cur.branch with _ | b <;>
            simp only [hp, hb]
          · exact ih _ _
          · exact ih _ _
          · exact ih _ _
          · obtain ⟨extra, he, hc⟩ := ih { path := none, branch := none }
              (acc ++ [{ path := p, branch := b, isMain := false,
                         hasChanges := none, changedFilesCount := none }])
            refine ⟨{ path := p, branch := b, isMain := false,
                      hasChanges := none, changedFilesCount := none } :: extra,
                    he.trans (by simp), ?_⟩
            simp [List.countP_cons, hc]
        · simp only [h3, if_false]
          exact ih _ _

/-- Running the parsing loop with `isFirst = true` either appends nothing, or
appends a first entry with `isMain = true` followed only by entries with
`isMain = false`. -/
theorem parseLoop_true_main (lines : List String) :
    ∀ (cur : CurRecord) (acc : List WorktreeInfo),
    parseLoop lines cur true acc = acc
    ∨ ∃ w extra, parseLoop lines cur true acc = acc ++ w :: extra
        ∧ w.isMain = true ∧ extra.countP (fun x => x.isMain) = 0 := by
  induction lines with
  | nil => intro cur acc; left; simp [parseLoop]
  | cons line rest ih =>
    intro cur acc
    unfold parseLoop
    by_cases h1 : jsStartsWith line "worktree " = true
    · simp only [h1, if_true]; exact ih _ _
    · rw [Bool.not_eq_true] at h1
      simp only [h1, Bool.false_eq_true, if_false]
      by_cases h2 : jsStartsWith line "branch " = true
      · simp only [h2, if_true]; exact ih _ _
      · rw [Bool.not_eq_true] at h2
        simp only [h2, Bool.false_eq_true, if_false]
        by_cases h3 : line = ""
        · simp only [h3, if_true]
          rcases hp : cur.path with _ | p <;> rcases hb : cur.branch with _ | b <;>
            simp only [hp, hb]
          · exact ih _ _
          · exact ih _ _
          · exact ih _ _
          · right
            obtain ⟨extra, he, hc⟩ := parseLoop_false_adds_no_main rest
              { path := none, branch := none }
              (acc ++ [{ path := p, branch := b, isMain := true,
                         hasChanges := none, changedFilesCount := none }])
            exact ⟨{ path := p, branch := b, isMain := true,
                     hasChanges := none, changedFilesCount := none }, extra,
                   he.trans (by simp), rfl, hc⟩
        · simp only [h3, if_false]
          exact ih _ _

/-- A list of branch entries whose `isCurrent` entries are all named `cur`, and
whose names do not include `cur`, has no `isCurrent` entry. -/
theorem countP_current_zero_of_not_mem (cur : String) (l : List BranchInfo)
    (hall : ∀ b ∈ l, b.isCurrent = true → b.name = cur)
    (hnm : cur ∉ l.map (fun b => b.name)) :
    l.countP (fun b => b.isCurrent) = 0 := by
  rw [List.countP_eq_zero]
  intro b hb hcur
  exact hnm ((hall b hb hcur) ▸ List.mem_map_of_mem (fun b => b.name) hb)

/-- A list of branch entries whose `isCurrent` entries are all named `cur` and
whose names are pairwise distinct has at most one `isCurrent` entry. -/
theorem countP_current_le_one (cur : String) :
    ∀ (l : List BranchInfo),
    (∀ b ∈ l, b.isCurrent = true → b.name = cur) →
    (l.map (fun b => b.name)).Nodup → l.countP (fun b => b.isCurrent) ≤ 1 := by
  intro l
  induction l with
  | nil => intro _ _; simp
  | cons hd tl ih =>
    intro hall hnd
    rw [List.map_cons, List.nodup_cons] at hnd
    by_cases hc : hd.isCurrent = true
    · have h0 : tl.countP (fun b => b.isCurrent) = 0 := by
        refine countP_current_zero_of_not_mem cur tl
          (fun b hb h => hall b (List.mem_cons_of_mem _ hb) h) ?_
        rw [← hall hd (List.mem_cons_self _ _) hc]
        exact hnd.1
      simp [List.countP_cons, hc, h0]
    · rw [Bool.not_eq_true] at hc
      simp only [List.countP_cons, hc]
      simpa using ih (fun b hb h => hall b (List.mem_cons_of_mem _ hb) h) hnd.2

/-! ## Claim theorems -/

/-- C1: in a dirty-worktree branch switch where checkout succeeds and the
restore (`git stash pop`) fails, a failure whose error text
(`err.stderr || err.message || ""`) matches the conflict signature yields an
overall success with `stashed = true`, `stashConflict = true` and
`currentBranch` equal to the target; a failure not matching the signature
yields an overall failure response. -/
theorem switch_pop_conflict_is_success (env : SwitchEnv) (wp bn : String)
    (out vOut sOut pOut cOut : String) (e : ExecError)
    (hw : wp ≠ "") (hb : bn ≠ "")
    (hr : env.revParseHead = .ok out) (hne : jsTrim out ≠ bn)
    (hv : env.verifyBranch = .ok vOut)
    (hs : env.statusPorcelain = .ok sOut) (hd : 0 < (jsTrim sOut).length)
    (hpush : env.stashPush = .ok pOut)
    (hco : env.checkout = .ok cOut)
    (hpop : env.stashPop1 = .err e) :
    (conflictSignature (errMsgOf e) = true →
      (switchBranch env (some wp) (some bn)).1 =
        .okResult { previousBranch := jsTrim out, currentBranch := bn,
                    message := msgConflict bn, stashed := true,
                    stashConflict := some true })
  ∧ (conflictSignature (errMsgOf e) = false →
      ∃ m, (switchBranch env (some wp) (some bn)).1 = .serverError m) := by
  constructor
  · intro hc
    unfold switchBranch checkoutPhase
    simp [isFalsy, hw, hb, hr, hne, hv, hs, hd, hpush, hco, hpop, hc]
  · intro hc
    refine ⟨getErrorMessage e, ?_⟩
    unfold switchBranch checkoutPhase
    simp [isFalsy, hw, hb, hr, hne, hv, hs, hd, hpush, hco, hpop, hc]

theorem switch_pop_conflict_is_success_witness :
    (switchBranch envPopConflict (some "/repo") (some "feat")).1 =
      .okResult { previousBranch := jsTrim "main\n", currentBranch := "feat",
                  message := msgConflict "feat", stashed := true,
                  stashConflict := some true }
    ∧ ∃ m, (switchBranch envPopBoom (some "/repo") (some "feat")).1 =
        .serverError m := by
  constructor
  · exact (switch_pop_conflict_is_success envPopConflict "/repo" "feat"
      "main\n" "abc123\n" " M a.ts\n" "" ""
      { stderr := "CONFLICT (content): Merge conflict in a.ts", message := "" }
      (by decide) (by decide) rfl (by decide) rfl rfl (by decide) rfl rfl rfl).1
      (by decide)
  · exact (switch_pop_conflict_is_success envPopBoom "/repo" "feat"
      "main\n" "abc123\n" " M a.ts\n" "" ""
      { stderr := "", message := "stash pop failed" }
      (by decide) (by decide) rfl (by decide) rfl rfl (by decide) rfl rfl rfl).2
      (by decide)

/-- C2: in a dirty-worktree branch switch (changes stashed) whose checkout
fails, a best-effort `git stash pop` is issued after the failed checkout and
before the failure is surfaced, and the response is the failure carrying the
original checkout error's message — for every outcome of the recovery pop
(`stashPop1`/`stashPop2` are unconstrained). -/
theorem switch_recovery_on_checkout_failure (env : SwitchEnv) (wp bn : String)
    (out vOut sOut pOut : String) (ce : ExecError)
    (hw : wp ≠ "") (hb : bn ≠ "")
    (hr : env.revParseHead = .ok out) (hne : jsTrim out ≠ bn)
    (hv : env.verifyBranch = .ok vOut)
    (hs : env.statusPorcelain = .ok sOut) (hd : 0 < (jsTrim sOut).length)
    (hpush : env.stashPush = .ok pOut)
    (hco : env.checkout = .err ce) :
    switchBranch env (some wp) (some bn) =
      (.serverError (getErrorMessage ce),
       [GitCall.revParseHead, GitCall.verifyBranch bn, GitCall.statusPorcelain,
        GitCall.stashPush, GitCall.checkout bn, GitCall.stashPop]) := by
  unfold switchBranch checkoutPhase
  simp [isFalsy, hw, hb, hr, hne, hv, hs, hd, hpush, hco]

theorem switch_recovery_on_checkout_failure_witness :
    switchBranch envCheckoutFail (some "/repo") (some "feat") =
      (.serverError "Command failed: git checkout feat",
       [GitCall.revParseHead, GitCall.verifyBranch "feat", GitCall.statusPorcelain,
        GitCall.stashPush, GitCall.checkout "feat", GitCall.stashPop]) :=
  switch_recovery_on_checkout_failure envCheckoutFail "/repo" "feat"
    "main\n" "abc123\n" " M a.ts\n" ""
    { stderr := "error: branch held elsewhere",
      message := "Command failed: git checkout feat" }
    (by decide) (by decide) rfl (by decide) rfl rfl (by decide) rfl rfl

/-- C3: in every branch-switch execution on a dirty worktree (the status query
resolves with non-blank output), every `git checkout` in the issued call trace
is strictly preceded by a `git stash push`; in particular a trace containing a
checkout also contains a stash push. -/
theorem switch_stash_before_checkout (env : SwitchEnv) (wp bn : Option String)
    (sOut : String) (hs : env.statusPorcelain = .ok sOut)
    (hd : 0 < (jsTrim sOut).length) :
    stashSeenBeforeCheckout (switchBranch env wp bn).2 false = true
    ∧ ∀ b, GitCall.checkout b ∈ (switchBranch env wp bn).2 →
        GitCall.stashPush ∈ (switchBranch env wp bn).2 := by
  have hchk : stashSeenBeforeCheckout (switchBranch env wp bn).2 false = true := by
    unfold switchBranch checkoutPhase
    rcases env with ⟨rph, vb, st, push, co, p1, p2⟩
    simp only at hs
    subst hs
    rcases wp with _ | wps
    · rfl
    by_cases hwf : isFalsy (some wps) = true
    · simp [hwf]; rfl
    rw [Bool.not_eq_true] at hwf
    simp only [hwf, Bool.false_eq_true, if_false]
    rcases bn with _ | bns
    · rfl
    by_cases hbf : isFalsy (some bns) = true
    · simp [hbf]; rfl
    rw [Bool.not_eq_true] at hbf
    simp only [hbf, Bool.false_eq_true, if_false]
    rcases rph with rout | re
    · simp only
      by_cases hsame : jsTrim rout = (some bns).getD ""
      · simp [hsame]; rfl
      · simp only [hsame, if_false]
        rcases vb with vout | ve
        · simp only [hd, if_true]
          rcases push with pout | pe
          · simp only
            rcases co with cout | ce
            · rcases p1 with qout | qe
              · rfl
              · simp only
                by_cases hc : conflictSignature (errMsgOf qe) = true
                · simp [hc]; rfl
                · rw [Bool.not_eq_true] at hc
                  simp [hc]; rfl
            · rfl
          · rfl
        · rfl
    · rfl
  exact ⟨hchk, fun b hmem => stashPush_mem_of_checker _ hchk b hmem⟩

theorem switch_stash_before_checkout_witness :
    stashSeenBeforeCheckout (switchBranch envAllOk (some "/repo") (some "feat")).2
      false = true :=
  (switch_stash_before_checkout envAllOk (some "/repo") (some "feat")
    " M a.ts\n" rfl (by decide)).1

/-- C4: a branch-switch request whose target equals the currently checked-out
branch returns immediately with a success result (`stashed = false`,
`previousBranch = currentBranch = target`, the no-op message), having issued
only the current-branch query — no state-mutating git call at all. -/
theorem switch_noop_when_on_target (env : SwitchEnv) (wp bn : String)
    (hw : wp ≠ "") (hb : bn ≠ "")
    (out : String) (hr : env.revParseHead = .ok out) (hcur : jsTrim out = bn) :
    switchBranch env (some wp) (some bn) =
      (.okResult { previousBranch := bn, currentBranch := bn,
                   message := msgAlreadyOn bn, stashed := false,
                   stashConflict := none },
       [GitCall.revParseHead])
    ∧ (switchBranch env (some wp) (some bn)).2.filter isMutating = [] := by
  have h1 : switchBranch env (some wp) (some bn) =
      (.okResult { previousBranch := bn, currentBranch := bn,
                   message := msgAlreadyOn bn, stashed := false,
                   stashConflict := none },
       [GitCall.revParseHead]) := by
    unfold switchBranch
    simp [isFalsy, hw, hb, hr, hcur]
  exact ⟨h1, by rw [h1]; rfl⟩

theorem switch_noop_when_on_target_witness :
    switchBranch envAllOk (some "/repo") (some "main") =
      (.okResult { previousBranch := "main", currentBranch := "main",
                   message := msgAlreadyOn "main", stashed := false,
                   stashConflict := none },
       [GitCall.revParseHead])
    ∧ (switchBranch envAllOk (some "/repo") (some "main")).2.filter isMutating = [] :=
  switch_noop_when_on_target envAllOk "/repo" "main" (by decide) (by decide)
    "main\n" rfl (by decide)

/-- C5: a missing worktree path or a missing target branch name is rejected
with a validation error before any git call; a target branch whose existence
check fails is rejected with a validation error after only the two
non-mutating queries (current branch, existence check) — no state-mutating
call is ever issued on any of these paths. -/
theorem switch_validation_before_mutation (env : SwitchEnv) (wp bn : Option String) :
    (isFalsy wp = true →
       switchBranch env wp bn = (.badRequest "worktreePath required", []))
  ∧ (isFalsy wp = false → isFalsy bn = true →
       switchBranch env wp bn = (.badRequest "branchName required", []))
  ∧ (∀ (wps bns out : String) (e : ExecError),
       wps ≠ "" → bns ≠ "" → env.revParseHead = .ok out → jsTrim out ≠ bns →
       env.verifyBranch = .err e →
       switchBranch env (some wps) (some bns) =
         (.badRequest (msgNoSuchBranch bns),
          [GitCall.revParseHead, GitCall.verifyBranch bns])
       ∧ (switchBranch env (some wps) (some bns)).2.filter isMutating = []) := by
  refine ⟨fun h => ?_, fun h1 h2 => ?_, fun wps bns out e hw hb hr hne hv => ?_⟩
  · unfold switchBranch; simp [h]
  · unfold switchBranch; simp [h1, h2]
  · have h1 : switchBranch env (some wps) (some bns) =
        (.badRequest (msgNoSuchBranch bns),
         [GitCall.revParseHead, GitCall.verifyBranch bns]) := by
      unfold switchBranch
      simp [isFalsy, hw, hb, hr, hne, hv]
    exact ⟨h1, by rw [h1]; rfl⟩

theorem switch_validation_before_mutation_witness :
    switchBranch envNoBranch none (some "feat") =
      (.badRequest "worktreePath required", [])
    ∧ switchBranch envNoBranch (some "/repo") (some "") =
      (.badRequest "branchName required", [])
    ∧ switchBranch envNoBranch (some "/repo") (some "nope") =
      (.badRequest (msgNoSuchBranch "nope"),
       [GitCall.revParseHead, GitCall.verifyBranch "nope"])
    ∧ (switchBranch envNoBranch (some "/repo") (some "nope")).2.filter isMutating
        = [] := by
  refine ⟨(switch_validation_before_mutation envNoBranch none (some "feat")).1 rfl,
          (switch_validation_before_mutation envNoBranch (some "/repo") (some "")).2.1
            rfl rfl, ?_, ?_⟩
  · exact ((switch_validation_before_mutation envNoBranch (some "/repo")
      (some "nope")).2.2 "/repo" "nope" "main\n"
      { stderr := "fatal: Needed a single revision",
        message := "Command failed: git rev-parse --verify nope" }
      (by decide) (by decide) rfl (by decide) rfl).1
  · exact ((switch_validation_before_mutation envNoBranch (some "/repo")
      (some "nope")).2.2 "/repo" "nope" "main\n"
      { stderr := "fatal: Needed a single revision",
        message := "Command failed: git rev-parse --verify nope" }
      (by decide) (by decide) rfl (by decide) rfl).2

/-- C9: in a dirty-worktree branch switch where checkout succeeds but the
`git stash pop` fails with a non-conflict error, the re-thrown pop error is
caught by the checkout-failure handler, which — `stashed` being true — issues
a second, best-effort `git stash pop` (its own outcome ignored: `stashPop2` is
unconstrained) before the pop error is propagated as the failure. -/
theorem switch_nonconflict_pop_recovery (env : SwitchEnv) (wp bn : String)
    (out vOut sOut pOut cOut : String) (e : ExecError)
    (hw : wp ≠ "") (hb : bn ≠ "")
    (hr : env.revParseHead = .ok out) (hne : jsTrim out ≠ bn)
    (hv : env.verifyBranch = .ok vOut)
    (hs : env.statusPorcelain = .ok sOut) (hd : 0 < (jsTrim sOut).length)
    (hpush : env.stashPush = .ok pOut)
    (hco : env.checkout = .ok cOut)
    (hpop : env.stashPop1 = .err e)
    (hnc : conflictSignature (errMsgOf e) = false) :
    switchBranch env (some wp) (some bn) =
      (.serverError (getErrorMessage e),
       [GitCall.revParseHead, GitCall.verifyBranch bn, GitCall.statusPorcelain,
        GitCall.stashPush, GitCall.checkout bn, GitCall.stashPop,
        GitCall.stashPop]) := by
  unfold switchBranch checkoutPhase
  simp [isFalsy, hw, hb, hr, hne, hv, hs, hd, hpush, hco, hpop, hnc]

theorem switch_nonconflict_pop_recovery_witness :
    switchBranch envPopBoomTwice (some "/repo") (some "feat") =
      (.serverError "stash pop failed",
       [GitCall.revParseHead, GitCall.verifyBranch "feat", GitCall.statusPorcelain,
        GitCall.stashPush, GitCall.checkout "feat", GitCall.stashPop,
        GitCall.stashPop]) :=
  switch_nonconflict_pop_recovery envPopBoomTwice "/repo" "feat"
    "main\n" "abc123\n" " M a.ts\n" "" ""
    { stderr := "", message := "stash pop failed" }
    (by decide) (by decide) rfl (by decide) rfl rfl (by decide) rfl rfl rfl
    (by decide)

/-- C6 (counterexample): the worktree-listing parser can produce an empty set
of records — here from the real porcelain output of a repository whose only
(main) worktree is on a detached HEAD, whose record lacks a `branch ` line and
is dropped — and then no result entry has `isMain = true`, refuting "exactly
one result entry has `isMain = true`" as stated. -/
theorem worktree_main_counterexample :
    parseWorktrees detachedOnlyOut = []
    ∧ (parseWorktrees detachedOnlyOut).countP (fun w => w.isMain) ≠ 1 := by
  constructor <;> decide

/-- C6 (amended): whenever the worktree-listing parser produces at least one
entry (records lacking a path or branch line having been dropped), exactly one
result entry has `isMain = true`, and it is the first entry in tool output
order. -/
theorem worktree_unique_main_of_nonempty (stdout : String)
    (h : parseWorktrees stdout ≠ []) :
    ∃ w t, parseWorktrees stdout = w :: t ∧ w.isMain = true
      ∧ t.countP (fun x => x.isMain) = 0
      ∧ (parseWorktrees stdout).countP (fun x => x.isMain) = 1 := by
  rcases parseLoop_true_main (jsSplitNl stdout) { path := none, branch := none } []
    with h0 | ⟨w, extra, he, hm, hc⟩
  · exact absurd h0 h
  · refine ⟨w, extra, ?_, hm, hc, ?_⟩
    · rw [parseWorktrees, he]; rfl
    · rw [parseWorktrees, he]
      simp [List.countP_cons, hm, hc]

theorem worktree_unique_main_witness :
    (parseWorktrees twoWorktreesOut).countP (fun x => x.isMain) = 1 := by
  obtain ⟨w, t, h1, h2, h3, h4⟩ :=
    worktree_unique_main_of_nonempty twoWorktreesOut (by decide)
  exact h4

/-- C7: in a branch-listing result, every entry with `isCurrent = true` has
`name` equal to the separately-resolved current branch, and — the enumerated
branch names being pairwise distinct, as the tool lists each local ref once —
at most one entry has `isCurrent = true`. -/
theorem branch_current_consistency (currentBranchOutput branchesOutput : String) :
    (∀ b ∈ (parseBranches currentBranchOutput branchesOutput).2,
        b.isCurrent = true →
        b.name = (parseBranches currentBranchOutput branchesOutput).1)
    ∧ (((parseBranches currentBranchOutput branchesOutput).2.map
          (fun b => b.name)).Nodup →
        (parseBranches currentBranchOutput branchesOutput).2.countP
          (fun b => b.isCurrent) ≤ 1) := by
  constructor
  · intro b hb hcur
    simp only [parseBranches, List.mem_map] at hb
    rcases hb with ⟨name, hmem, rfl⟩
    exact eq_of_beq hcur
  · intro hnd
    refine countP_current_le_one
      (parseBranches currentBranchOutput branchesOutput).1 _ ?_ hnd
    intro b hb hcur
    simp only [parseBranches, List.mem_map] at hb
    rcases hb with ⟨name, hmem, rfl⟩
    exact eq_of_beq hcur

theorem branch_current_consistency_witness :
    ({ name := "main", isCurrent := true, isRemote := false } : BranchInfo).name =
      (parseBranches "main\n" "main\nfeat\n").1
    ∧ (parseBranches "main\n" "main\nfeat\n").2.countP (fun b => b.isCurrent) ≤ 1 := by
  constructor
  · exact (branch_current_consistency "main\n" "main\nfeat\n").1
      { name := "main", isCurrent := true, isRemote := false } (by decide) rfl
  · exact (branch_current_consistency "main\n" "main\nfeat\n").2 (by decide)

/-- C8: detail-mode enrichment preserves the listing index for index
(`getElem?` commutes with the per-entry enrichment), sets
`hasChanges = false` and `changedFilesCount = 0` for every worktree whose
status query fails while keeping the entry present, and the entry at a
position depends only on the status outcome at that worktree's own path, so a
failure for one worktree cannot affect any other entry. -/
theorem worktree_enrichment_isolation (statusOf : String → ExecOutcome)
    (ws : List WorktreeInfo) :
    (enrichWorktrees statusOf ws).length = ws.length
  ∧ (∀ i : Nat, (enrichWorktrees statusOf ws)[i]? =
        (ws[i]?).map (fun w => enrichWorktree (statusOf w.path) w))
  ∧ (∀ w ∈ ws, ∀ e, statusOf w.path = ExecOutcome.err e →
        enrichWorktree (statusOf w.path) w =
          { w with hasChanges := some false, changedFilesCount := some 0 })
  ∧ (∀ (statusOf2 : String → ExecOutcome) (i : Nat) (w : WorktreeInfo),
        ws[i]? = some w → statusOf w.path = statusOf2 w.path →
        (enrichWorktrees statusOf ws)[i]? = (enrichWorktrees statusOf2 ws)[i]?) := by
  refine ⟨by simp [enrichWorktrees], fun i => ?_, fun w _ e he => ?_,
          fun g i w hi hagree => ?_⟩
  · simp [enrichWorktrees]
  · rw [he]; rfl
  · simp [enrichWorktrees, List.getElem?_map, hi, hagree]

theorem worktree_enrichment_isolation_witness :
    enrichWorktree (statusOracleA wtLinked.path) wtLinked =
      { wtLinked with hasChanges := some false, changedFilesCount := some 0 }
    ∧ (enrichWorktrees statusOracleA [wtRepo, wtLinked]).length = 2
    ∧ (enrichWorktrees statusOracleA [wtRepo, wtLinked])[1]? =
        (enrichWorktrees statusOracleB [wtRepo, wtLinked])[1]? := by
  refine ⟨?_, ?_, ?_⟩
  · exact (worktree_enrichment_isolation statusOracleA [wtRepo, wtLinked]).2.2.1
      wtLinked (by decide)
      { stderr := "fatal: not a git repository",
        message := "Command failed: git status --porcelain" } (by decide)
  · exact (worktree_enrichment_isolation statusOracleA [wtRepo, wtLinked]).1
  · exact (worktree_enrichment_isolation statusOracleA [wtRepo, wtLinked]).2.2.2
      statusOracleB 1 wtLinked (by decide) (by decide)

/-- C10: in a detail-mode listing, every enriched entry satisfies
`hasChanges = true` iff its `changedFilesCount` is positive — both when the
per-entry status query succeeds and when it fails. -/
theorem worktree_hasChanges_iff_count_pos (statusOf : String → ExecOutcome)
    (ws : List WorktreeInfo) (w : WorktreeInfo)
    (hw : w ∈ enrichWorktrees statusOf ws) :
    w.hasChanges = some true ↔ ∃ n, w.changedFilesCount = some n ∧ 0 < n := by
  rcases List.mem_map.mp hw with ⟨v, _, rfl⟩
  cases ho : statusOf v.path with
  | ok s =>
    simp only [enrichWorktree, ho, Option.some.injEq]
    constructor
    · intro h
      exact ⟨countChangedLines s, rfl, of_decide_eq_true h⟩
    · rintro ⟨n, hn, hpos⟩
      subst hn
      exact decide_eq_true hpos
  | err e =>
    simp [enrichWorktree, ho]

theorem worktree_hasChanges_iff_count_pos_witness :
    (enrichWorktree (statusOracleA wtRepo.path) wtRepo).hasChanges = some true :=
  (worktree_hasChanges_iff_count_pos statusOracleA [wtRepo]
    (enrichWorktree (statusOracleA wtRepo.path) wtRepo) (by decide)).mpr
    ⟨2, by decide, by decide⟩
